import Mathlib

/-!
Verification development for the `plasmapy.particles` particle data model.

The repository's `particle_class.py`, `parsing`, and `serialization` modules are
not present in the source tree (only their test suite is), so the definitions
below are a shallow embedding modelled from the specification (`spec.md`),
cross-checked against the expected values recorded in
`tests/test_particle_class.py`.  Masses are exact integers in fixed SI
subunits; fallible operations return `Except`.
-/

deriving instance DecidableEq for Except

namespace PlasmaPy

/-- Modelled from the spec: the error taxonomy of spec section 7
(`InvalidParticleError`, `InvalidElementError`, `InvalidIsotopeError`,
`InvalidIonError`, `ChargeError`, `MissingAtomicDataError`, `AtomicError`)
together with the builtin Python `TypeError` / `ValueError` used by
`ionize` / `recombine` argument checking. -/
inductive PError where
  | invalidParticle
  | invalidElement
  | invalidIsotope
  | invalidIon
  | chargeErr
  | missingAtomicData
  | atomic
  | typeError
  | valueError
deriving DecidableEq, Repr

/-- Modelled from the spec: non-fatal warning kinds of spec section 7
(`AtomicWarning`, `MissingAtomicDataWarning`). -/
inductive PWarning where
  | atomicWarning
  | missingAtomicDataWarning
deriving DecidableEq, Repr

/-- Masses are exact integers in units of 1.0e-41 kg, so that attribute
arithmetic stays in `Int`.  Electron rest mass (9.1093837015e-31 kg). -/
def m_e : Int := 91093837015

/-- Proton rest mass (1.67262192369e-27 kg, in units of 1.0e-41 kg). -/
def m_p : Int := 167262192369000

/-- Neutron rest mass (1.67492749804e-27 kg, in units of 1.0e-41 kg). -/
def m_n : Int := 167492749804000

/-- Muon rest mass (1.883531627e-28 kg, in units of 1.0e-41 kg). -/
def m_mu : Int := 18835316270000

/-- Tau rest mass (3.16754e-27 kg, in units of 1.0e-41 kg). -/
def m_tau : Int := 316754000000000

/-- Modelled from the spec: a resolved particle identity (spec section 3).
A single record covering the subatomic / element / isotope / ion variants;
fields not meaningful to a variant are `none`.  `tabulatedMass` is the rest
mass recorded in the subatomic catalog (`none` for neutrinos, whose rest mass
is missing reference data); derived masses of isotopes and ions are computed
by the attribute accessors below. -/
structure Particle where
  symbol : String
  element : Option String := none
  isotope : Option String := none
  atomicNumber : Option Nat := none
  massNumber : Option Nat := none
  charge : Option Int := none
  tabulatedMass : Option Int := none
  antiSymbol : Option String := none
  categories : List String := []
deriving DecidableEq, Repr

/-- Modelled from the spec: the result of one resolution call of the symbol
parser, carrying the resolved particle and any non-fatal warnings surfaced to
the caller (spec sections 4.1, 7). -/
structure ParseResult where
  particle : Particle
  warnings : List PWarning
deriving DecidableEq, Repr

/-- Modelled from the spec: the closed category-tag vocabulary used by
`is_category` (spec section 4.3); the tag `invalid` is deliberately not a
member. -/
def validCategories : List String :=
  ["element", "isotope", "ion", "charged", "uncharged", "fermion", "boson",
   "lepton", "baryon", "matter", "antimatter", "neutrino", "antineutrino",
   "electron", "positron", "proton", "antiproton", "neutron", "antineutron",
   "nonmetal", "metal", "stable", "unstable"]

/-- Modelled from the spec: the subatomic-particle catalog (the particle zoo
of `special_particles.py`), restricted to the sixteen particles exercised by
the repository's tests, with charge, catalog rest mass, antiparticle symbol
and category set (spec sections 3, 4.3). -/
def particleZoo : List Particle :=
  [⟨"p+", some "H", some "H-1", some 1, some 1, some 1, some m_p, some "p-",
    ["element", "isotope", "ion", "charged", "fermion", "baryon", "matter", "proton", "nonmetal"]⟩,
   ⟨"p-", none, none, none, none, some (-1), some m_p, some "p+",
    ["charged", "fermion", "baryon", "antimatter", "antiproton"]⟩,
   ⟨"n", none, none, none, none, some 0, some m_n, some "antineutron",
    ["uncharged", "fermion", "baryon", "matter", "neutron"]⟩,
   ⟨"antineutron", none, none, none, none, some 0, some m_n, some "n",
    ["uncharged", "fermion", "baryon", "antimatter", "antineutron"]⟩,
   ⟨"e-", none, none, none, none, some (-1), some m_e, some "e+",
    ["charged", "fermion", "lepton", "matter", "electron"]⟩,
   ⟨"e+", none, none, none, none, some 1, some m_e, some "e-",
    ["charged", "fermion", "lepton", "antimatter", "positron"]⟩,
   ⟨"mu-", none, none, none, none, some (-1), some m_mu, some "mu+",
    ["charged", "fermion", "lepton", "matter"]⟩,
   ⟨"mu+", none, none, none, none, some 1, some m_mu, some "mu-",
    ["charged", "fermion", "lepton", "antimatter"]⟩,
   ⟨"tau-", none, none, none, none, some (-1), some m_tau, some "tau+",
    ["charged", "fermion", "lepton", "matter"]⟩,
   ⟨"tau+", none, none, none, none, some 1, some m_tau, some "tau-",
    ["charged", "fermion", "lepton", "antimatter"]⟩,
   ⟨"nu_e", none, none, none, none, some 0, none, some "anti_nu_e",
    ["uncharged", "fermion", "lepton", "matter", "neutrino"]⟩,
   ⟨"anti_nu_e", none, none, none, none, some 0, none, some "nu_e",
    ["uncharged", "fermion", "lepton", "antimatter", "antineutrino"]⟩,
   ⟨"nu_mu", none, none, none, none, some 0, none, some "anti_nu_mu",
    ["uncharged", "fermion", "lepton", "matter", "neutrino"]⟩,
   ⟨"anti_nu_mu", none, none, none, none, some 0, none, some "nu_mu",
    ["uncharged", "fermion", "lepton", "antimatter", "antineutrino"]⟩,
   ⟨"nu_tau", none, none, none, none, some 0, none, some "anti_nu_tau",
    ["uncharged", "fermion", "lepton", "matter", "neutrino"]⟩,
   ⟨"anti_nu_tau", none, none, none, none, some 0, none, some "nu_tau",
    ["uncharged", "fermion", "lepton", "antimatter", "antineutrino"]⟩]

/-- Modelled from the spec: the fixed catalog of subatomic-particle aliases
mapped to canonical symbols (spec section 4.1). -/
def subatomicAliases : List (String × String) :=
  [("proton", "p+"), ("antiproton", "p-"), ("neutron", "n"),
   ("electron", "e-"), ("e", "e-"), ("positron", "e+"),
   ("muon", "mu-"), ("muon-", "mu-"), ("muon+", "mu+"),
   ("tau", "tau-")]

/-- Modelled from the spec: one entry of the immutable element reference table
(spec section 6, `lookup_element`): symbol, name, atomic number and optional
standard atomic weight in units of 1.0e-41 kg. -/
structure ElementEntry where
  symbol : String
  name : String
  atomicNumber : Nat
  standardAtomicWeight : Option Int
deriving DecidableEq, Repr

/-- Modelled from the spec: the element reference table restricted to the
elements exercised by the claims (H, He, Fe). -/
def elementTable : List ElementEntry :=
  [⟨"H", "hydrogen", 1, some 167353280000000⟩,
   ⟨"He", "helium", 2, some 664647310000000⟩,
   ⟨"Fe", "iron", 26, some 9273326000000000⟩]

/-- Modelled from the spec: one entry of the immutable isotope reference table
(spec section 6, `lookup_isotope`): canonical isotope symbol, accepted alias
spellings, element symbol, atomic number, mass number and the neutral-atom
mass in units of 1.0e-41 kg. -/
structure IsotopeEntry where
  symbol : String
  aliases : List String
  element : String
  atomicNumber : Nat
  massNumber : Nat
  atomicMass : Int
deriving DecidableEq, Repr

/-- Modelled from the spec: the isotope reference table restricted to the
isotopes exercised by the claims.  The neutral-atom mass of H-1 is the proton
mass plus one electron mass, so that the bare-nucleus mass of H-1 agrees
exactly with the catalog proton mass, as the repository's tests require. -/
def isotopeTable : List IsotopeEntry :=
  [⟨"H-1", ["H-1", "protium"], "H", 1, 1, m_p + m_e⟩,
   ⟨"D", ["D", "H-2", "deuterium"], "H", 1, 2, 334358377240000⟩,
   ⟨"T", ["T", "H-3", "tritium"], "H", 1, 3, 500735674460000⟩,
   ⟨"He-4", ["He-4"], "He", 2, 4, 664465733570000⟩,
   ⟨"Fe-56", ["Fe-56"], "Fe", 26, 56, 9288306000000000⟩]

/-- Particle value for a neutral element with unknown charge state. -/
def elementParticle (el : ElementEntry) : Particle :=
  ⟨el.symbol, some el.symbol, none, some el.atomicNumber, none, none, none, none,
   ["element", "matter"]⟩

/-- Particle value for an isotope with no charge information. -/
def isotopeParticle (iso : IsotopeEntry) : Particle :=
  ⟨iso.symbol, some iso.element, some iso.symbol, some iso.atomicNumber,
   some iso.massNumber, none, none, none, ["element", "isotope", "matter"]⟩

/-- Canonical ionic symbol `base Z+` / `base Z-` for an integer charge
(spec glossary, canonical symbol). -/
def ionSymbolStr (base : String) (z : Int) : String :=
  base ++ " " ++ Nat.repr z.natAbs ++ (if z < 0 then "-" else "+")

/-- Set a known integer charge on an element/isotope particle, recomputing the
canonical symbol and the charge-dependent category tags. -/
def setCharge (p : Particle) (z : Int) : Particle :=
  let base := p.isotope.getD (p.element.getD p.symbol)
  { p with
    charge := some z
    symbol := ionSymbolStr base z
    categories := p.categories ++ (if z = 0 then ["uncharged"] else ["charged", "ion"]) }

/-- Look up a raw string in the subatomic alias catalog and the zoo. -/
def findSubatomic (s : String) : Option Particle :=
  let canonical :=
    match subatomicAliases.find? (fun pr => pr.1 == s) with
    | some pr => pr.2
    | none => s
  particleZoo.find? (fun p => p.symbol == canonical)

/-- Particle value for the alpha particle (fully stripped He-4). -/
def alphaParticle : Particle :=
  ⟨"He-4 2+", some "He", some "He-4", some 2, some 4, some 2, none, none,
   ["element", "isotope", "ion", "charged", "matter", "boson"]⟩

/-- Modelled from the spec: full-string aliases that resolve directly to a
charged particle (the generic hydrogen/helium aliases of spec section 4.1). -/
def chargedAliasTable : List (String × Particle) :=
  [("alpha", alphaParticle)]

/-- Modelled from the spec: resolve a charge-free base string to a subatomic,
isotope, or element particle, failing with `InvalidParticleError` when the
string matches no known alias or symbol pattern (spec section 4.1). -/
def resolveBase (s : String) : Except PError Particle :=
  match findSubatomic s with
  | some p => .ok p
  | none =>
    match isotopeTable.find? (fun iso => iso.aliases.contains s) with
    | some iso => .ok (isotopeParticle iso)
    | none =>
      match elementTable.find? (fun el => el.symbol == s || el.name == s) with
      | some el => .ok (elementParticle el)
      | none => .error .invalidParticle

/-- Digit values used by the charge-token parser. -/
def digitVal : List (Char × Nat) :=
  [('0', 0), ('1', 1), ('2', 2), ('3', 3), ('4', 4),
   ('5', 5), ('6', 6), ('7', 7), ('8', 8), ('9', 9)]

/-- Parse a nonempty digit sequence into a natural number. -/
def parseDigits : List Char → Option Nat
  | [] => none
  | cs =>
    cs.foldl (fun acc c =>
      match acc, digitVal.find? (fun pr => pr.1 == c) with
      | some n, some pr => some (10 * n + pr.2)
      | _, _ => none) (some 0)

/-- Modelled from the spec: parse a space-separated charge token such as
`26+`, `1-` or `+2` into an integer charge (spec section 4.1, ionic-charge
notation). -/
def parseChargeTok (cs : List Char) : Option Int :=
  match cs.getLast? with
  | some '+' =>
    (parseDigits (cs.dropLast)).map (fun n => (n : Int))
  | some '-' =>
    (parseDigits (cs.dropLast)).map (fun n => -(n : Int))
  | _ =>
    match cs with
    | '+' :: ds => (parseDigits ds).map (fun n => (n : Int))
    | '-' :: ds => (parseDigits ds).map (fun n => -(n : Int))
    | _ => none

/-- Trailing run of `+` / `-` characters of a raw particle string. -/
def signRun (s : String) : List Char :=
  (s.toList.reverse.takeWhile (fun c => c == '+' || c == '-')).reverse

/-- Raw particle string with its trailing sign run removed. -/
def restPart (s : String) : List Char :=
  (s.toList.reverse.drop (signRun s).length).reverse

/-- Result of extracting trailing charge notation from a raw string: the
remaining base string, the extracted integer charge, and whether the notation
is suspicious enough to surface an `AtomicWarning`. -/
structure ChargeExtraction where
  rest : String
  charge : Option Int
  warn : Bool
deriving DecidableEq, Repr

/-- Modelled from the spec: extraction of trailing `+` / `-` charge notation
(spec section 4.1).  A run of more than 6 sign characters or an internally
inconsistent (mixed `+` / `-`) run is still given its best parseable
interpretation (the net sign count) with a non-fatal `AtomicWarning`; the
warning also fires when the resulting charge is below -3, which the
repository's tests require for inputs such as `H----`.  The extraction fails
with `InvalidParticleError` when nothing but sign characters remains. -/
def extractCharge (s : String) : Except PError ChargeExtraction :=
  let run := signRun s
  let rest := restPart s
  if run.isEmpty then .ok ⟨s, none, false⟩
  else if rest.isEmpty then .error .invalidParticle
  else
    let net : Int := (run.count '+' : Int) - (run.count '-' : Int)
    let mixed : Bool := run.contains '+' && run.contains '-'
    .ok ⟨String.mk rest, some net,
         decide (6 < run.length) || mixed || decide (net < -3)⟩

/-- Modelled from the spec: attach an extracted integer charge to a resolved
base particle.  A charge already fixed by the base alias, a charge on a
particle with no element, or a positive charge exceeding the atomic number
(stripping more electrons than protons present) raises
`InvalidParticleError` (spec section 4.2). -/
def attachCharge (p : Particle) (z : Int) (warn : Bool) : Except PError ParseResult :=
  if p.charge.isSome then .error .invalidParticle
  else
    match p.atomicNumber with
    | some zAtomic =>
      if (zAtomic : Int) < z then .error .invalidParticle
      else .ok ⟨setCharge p z, if warn then [.atomicWarning] else []⟩
    | none => .error .invalidParticle

/-- Modelled from the spec: the symbol parser and normalizer
(spec section 4.1).  Raw input is matched against the subatomic alias catalog
first; otherwise ionic-charge notation (`Symbol N+` / `Symbol N-` or trailing
sign runs) is stripped and the base resolved against the alias, isotope, and
element tables.  Unresolvable input fails with `InvalidParticleError`;
suspicious charge notation succeeds with an `AtomicWarning`. -/
def parseParticle (s : String) : Except PError ParseResult :=
  match findSubatomic s with
  | some p => .ok ⟨p, []⟩
  | none =>
    match chargedAliasTable.find? (fun pr => pr.1 == s) with
    | some pr => .ok ⟨pr.2, []⟩
    | none =>
      match s.toList.splitOn ' ' with
      | [baseCs, chargeCs] =>
        match parseChargeTok chargeCs with
        | none => .error .invalidParticle
        | some z =>
          match resolveBase (String.mk baseCs) with
          | .error e => .error e
          | .ok p => attachCharge p z (decide (z < -3))
      | [_] =>
        match extractCharge s with
        | .error e => .error e
        | .ok ce =>
          match resolveBase ce.rest with
          | .error e => .error e
          | .ok p =>
            match ce.charge with
            | none => .ok ⟨p, []⟩
            | some z => attachCharge p z ce.warn
      | _ => .error .invalidParticle

/-- Modelled from the spec: the `mass` attribute getter (spec section 4.3).
Subatomic particles use their catalog rest mass (`MissingAtomicDataError` when
absent, e.g. neutrinos); ions and isotopes derive their mass from the
neutral-atom mass of the isotope minus one electron mass per unit of positive
charge; bare elements fall back to the standard atomic weight. -/
def Particle.mass (p : Particle) : Except PError Int :=
  match p.tabulatedMass with
  | some m => .ok m
  | none =>
    match p.isotope with
    | some isoSym =>
      match isotopeTable.find? (fun iso => iso.symbol == isoSym) with
      | some iso =>
        match p.charge with
        | some z => .ok (iso.atomicMass - z * m_e)
        | none => .ok iso.atomicMass
      | none => .error .invalidParticle
    | none =>
      match p.element with
      | some elSym =>
        match elementTable.find? (fun el => el.symbol == elSym) with
        | some el =>
          match el.standardAtomicWeight with
          | some w => .ok w
          | none => .error .missingAtomicData
        | none => .error .invalidParticle
      | none => .error .missingAtomicData

/-- Modelled from the spec: the `nuclide_mass` attribute getter
(spec section 4.3 and glossary): the bare-nucleus mass of an isotope or
ion-of-isotope, independent of the charge state under query; for the single
nucleons `n` and `p+` it is the catalog rest mass; `InvalidIsotopeError` when
no isotope is chosen. -/
def Particle.nuclide_mass (p : Particle) : Except PError Int :=
  if p.symbol == "n" || p.symbol == "p+" then
    match p.tabulatedMass with
    | some m => .ok m
    | none => .error .missingAtomicData
  else
    match p.isotope with
    | some isoSym =>
      match isotopeTable.find? (fun iso => iso.symbol == isoSym) with
      | some iso => .ok (iso.atomicMass - iso.atomicNumber * m_e)
      | none => .error .invalidIsotope
    | none => .error .invalidIsotope

/-- Python numeric argument passed to `ionize` / `recombine`: either an
integer or a non-integral float (represented by a rational). -/
inductive PyNum where
  | int (n : Int)
  | float (q : ℚ)
deriving DecidableEq, Repr

/-- Modelled from the spec: the `ionize` transition (spec section 4.3):
`InvalidElementError` when the particle has no element, `ChargeError` when the
charge state is unknown, `TypeError` for a non-integer count, `ValueError` for
a non-positive count, and `InvalidIonError` when ionizing beyond the atomic
number; otherwise a new particle with the charge raised by `n`. -/
def Particle.ionize (p : Particle) (n : PyNum) : Except PError Particle :=
  match p.element, p.atomicNumber with
  | some _, some zAtomic =>
    match p.charge with
    | none => .error .chargeErr
    | some c =>
      match n with
      | .float _ => .error .typeError
      | .int k =>
        if k ≤ 0 then .error .valueError
        else if (zAtomic : Int) < c + k then .error .invalidIon
        else .ok (setCharge p (c + k))
  | _, _ => .error .invalidElement

/-- Modelled from the spec: the `recombine` transition (spec section 4.3),
with the same argument checking as `ionize` and the charge lowered by `n`;
recombining below the negative of the atomic number is rejected like any
over-specified charge (`InvalidParticleError`). -/
def Particle.recombine (p : Particle) (n : PyNum) : Except PError Particle :=
  match p.element, p.atomicNumber with
  | some _, some zAtomic =>
    match p.charge with
    | none => .error .chargeErr
    | some c =>
      match n with
      | .float _ => .error .typeError
      | .int k =>
        if k ≤ 0 then .error .valueError
        else if c - k < -(zAtomic : Int) then .error .invalidParticle
        else .ok (setCharge p (c - k))
  | _, _ => .error .invalidElement

/-- Pure membership answer of a category query against a particle's category
set: all of `require`, at least one of `any_of` (when given), none of
`exclude`. -/
def categoryMembership (p : Particle) (require anyOf exclude : List String) : Bool :=
  decide (∀ t ∈ require, t ∈ p.categories) &&
  (anyOf.isEmpty || decide (∃ t ∈ anyOf, t ∈ p.categories)) &&
  decide (∀ t ∈ exclude, t ∉ p.categories)

/-- Modelled from the spec: the `is_category` query (spec section 4.3):
`AtomicError` when any argument names a tag outside the fixed vocabulary or
when `exclude` shares a tag with `require` / `any_of` (self-contradictory
query); otherwise the boolean membership answer. -/
def Particle.is_category (p : Particle) (require anyOf exclude : List String) :
    Except PError Bool :=
  if ∃ t ∈ require ++ anyOf ++ exclude, t ∉ validCategories then .error .atomic
  else if ∃ t ∈ exclude, t ∈ require ∨ t ∈ anyOf then .error .atomic
  else .ok (categoryMembership p require anyOf exclude)

/-- Modelled from the spec: the `antiparticle` operation (spec section 4.3):
defined only for subatomic catalog entries, resolving the catalogued
antiparticle symbol through the parser; `AtomicError` for particles with no
antiparticle symbol (elements, isotopes, ions). -/
def Particle.antiparticle (p : Particle) : Except PError Particle :=
  match p.antiSymbol with
  | some s => (parseParticle s).map (fun r => r.particle)
  | none => .error .atomic

/-- Modelled from the spec: the unary invert operator, which returns the same
value as the `antiparticle` attribute (spec section 4.4). -/
def Particle.invert (p : Particle) : Except PError Particle :=
  p.antiparticle

/-- Python value compared against a particle: another particle, a string, an
integer, or some other non-particle object. -/
inductive PyVal where
  | particle (q : Particle)
  | str (s : String)
  | int (n : Int)
  | other
deriving DecidableEq, Repr

/-- Modelled from the spec: particle equality (spec section 3 invariants and
the repository's `test_Particle_cmp` test of record): two particles are equal
iff their canonical symbols are equal; a string operand is resolved through
the parser, raising `AtomicError` when it is unparseable; any other
non-particle operand raises `TypeError`. -/
def Particle.eqVal (p : Particle) (v : PyVal) : Except PError Bool :=
  match v with
  | .particle q => .ok (p.symbol == q.symbol)
  | .str s =>
    match parseParticle s with
    | .ok r => .ok (p.symbol == r.particle.symbol)
    | .error _ => .error .atomic
  | _ => .error .typeError

/-- Modelled from the spec: truth-value evaluation of a particle.  The value
types expose no boolean interpretation; per the repository's
`test_particle_bool_error` test of record, evaluating `bool` on any particle
raises the generic `AtomicError` kind (spec section 7 assigns `AtomicError`
to general invariant misuse). -/
def Particle.toBool (_ : Particle) : Except PError Bool :=
  .error .atomic

/-- Parse a raw string and apply an attribute accessor or transition to the
resolved particle, propagating errors as the test harness does. -/
def pipeParticle {α : Type} (s : String) (f : Particle → Except PError α) :
    Except PError α :=
  match parseParticle s with
  | .ok r => f r.particle
  | .error e => .error e

/-- Modelled from the spec: a constructed particle object.  Python object
identity (`is` / `is not`) is modelled by tagging each constructed value with
the allocation counter current at construction time; value equality compares
the carried particle values (spec section 3 invariants). -/
structure PObject where
  id : Nat
  val : Particle
deriving DecidableEq, Repr

/-- Modelled from the spec: constructing a `Particle` from an existing
particle copies its descriptor without reparsing the string form and
allocates a fresh object (spec sections 4.1, 8): the new object carries an
equal particle value under a fresh allocation id, and the counter advances. -/
def mkParticleFromParticle (p : PObject) (counter : Nat) : PObject × Nat :=
  (⟨counter, p.val⟩, counter + 1)

/-- Modelled from the spec: the elementary charge, an exact integer in units
of 1.0e-28 C (1.602176634e-19 C). -/
def elementaryCharge : Int := 1602176634

/-- Charge units understood by the `CustomParticle` constructor, with their
conversion factor to the SI subunit of 1.0e-28 C. -/
def chargeUnits : List (String × Int) :=
  [("C", 10 ^ 28), ("kC", 10 ^ 31)]

/-- Argument accepted for the mass or charge of a `CustomParticle`: a bare
dimensionless number or a dimensioned quantity with a unit symbol.  The
numeric value is an integer in millionths so that fractional inputs such as
`-0.1` stay exact. -/
inductive QtyArg where
  | bare (millionths : Int)
  | qty (millionths : Int) (unit : String)
deriving DecidableEq, Repr

/-- Modelled from the spec: charge handling of the `CustomParticle`
constructor (spec section 4.4): a bare numeric charge is interpreted as a
multiple of the elementary charge; a dimensioned charge quantity is stored as
given (converted to the SI subunit); an omitted charge defaults to
not-a-number (`none`); an unknown unit is rejected with
`InvalidParticleError`.  Charges are in units of 1.0e-34 C (millionths of the
1.0e-28 C subunit). -/
def customParticleCharge : Option QtyArg → Except PError (Option Int)
  | none => .ok none
  | some (.bare x) => .ok (some (x * elementaryCharge))
  | some (.qty v u) =>
    match chargeUnits.find? (fun pr => pr.1 == u) with
    | some pr => .ok (some (v * pr.2))
    | none => .error .invalidParticle

/-- Value stored inside the `__init__` kwargs of a JSON particle envelope. -/
inductive KwVal where
  | num (millionths : Int)
  | nan
  | qty (millionths : Int) (unit : String)
  | qtyNan (unit : String)

/-- Entry of the object stored under the `plasmapy_particle` key of a JSON
particle envelope: either a plain string field (such as `type`, `module`,
`date_created`) or the `__init__` replay record with `args` and `kwargs`. -/
inductive EnvEntry where
  | strVal (s : String)
  | initVal (args : List String) (kwargs : List (String × KwVal))

/-- Association-list lookup over envelope keys. -/
def lookupKey {α : Type} : List (String × α) → String → Option α
  | [], _ => none
  | pr :: rest, k => if pr.1 == k then some pr.2 else lookupKey rest k

/-- Parsed JSON document holding a particle envelope: the object stored under
the outer `plasmapy_particle` key. -/
structure JsonDoc where
  pardict : List (String × EnvEntry)

/-- File object whose contents parse to a JSON particle document. -/
structure JsonFile where
  contents : JsonDoc

/-- Result of decoding a JSON particle envelope. -/
inductive Decoded where
  | particle (p : Particle)
  | custom (mass charge : Option Int)
  | dimensionless (mass charge : Option Int)

/-- Modelled from the spec: replay of the decoded `args` / `kwargs` through
the named variant's constructor (spec section 4.5); an unknown variant name
fails like a missing key. -/
def replayConstructor (tyname : String) (args : List String)
    (kwargs : List (String × KwVal)) : Except PError Decoded :=
  let asQty : Option KwVal → Option QtyArg := fun kv =>
    match kv with
    | some (.num x) => some (.bare x)
    | some (.qty v u) => some (.qty v u)
    | _ => none
  if tyname == "Particle" then
    match args with
    | [s] => (parseParticle s).map (fun r => .particle r.particle)
    | _ => .error .invalidParticle
  else if tyname == "CustomParticle" then
    match customParticleCharge (asQty (lookupKey kwargs "charge")),
          customParticleCharge (asQty (lookupKey kwargs "mass")) with
    | .ok c, .ok m => .ok (.custom m c)
    | .error e, _ => .error e
    | _, .error e => .error e
  else if tyname == "DimensionlessParticle" then
    match asQty (lookupKey kwargs "mass"), asQty (lookupKey kwargs "charge") with
    | some (.bare x), some (.bare y) => .ok (.dimensionless (some x) (some y))
    | some (.bare x), none => .ok (.dimensionless (some x) none)
    | none, some (.bare y) => .ok (.dimensionless none (some y))
    | _, _ => .ok (.dimensionless none none)
  else .error .invalidElement

/-- Modelled from the spec: decoding of the JSON particle envelope
(spec section 4.5).  The key that should be `type` and the key that should be
`__init__` are looked up literally; when either is absent (e.g. replaced by a
legacy or foreign key) decoding fails with `InvalidElementError`, with no
fallback guessing attempted. -/
def decodeEnvelope (doc : JsonDoc) : Except PError Decoded :=
  match lookupKey doc.pardict "type" with
  | some (.strVal tyname) =>
    match lookupKey doc.pardict "__init__" with
    | some (.initVal args kwargs) => replayConstructor tyname args kwargs
    | some (.strVal _) => .error .invalidElement
    | none => .error .invalidElement
  | some (.initVal _ _) => .error .invalidElement
  | none => .error .invalidElement

/-- Modelled from the spec: the string-decoding entry point
`json_loads_particle`, applied to the parsed document. -/
def json_loads_particle (doc : JsonDoc) : Except PError Decoded :=
  decodeEnvelope doc

/-- Modelled from the spec: the file-decoding entry point
`json_load_particle`: reads the file object and decodes its contents exactly
as the string-decoding entry point does. -/
def json_load_particle (fp : JsonFile) : Except PError Decoded :=
  json_loads_particle fp.contents

/-- Catalog proton particle, used as a concrete instance in witnesses. -/
def protonParticle : Particle :=
  ⟨"p+", some "H", some "H-1", some 1, some 1, some 1, some m_p, some "p-",
   ["element", "isotope", "ion", "charged", "fermion", "baryon", "matter", "proton", "nonmetal"]⟩

/-- Isotope / fully-stripped-ion string pairs exercised by the repository's
`test_particle_class_mass_nuclide_mass` test of record, including the single
nucleons. -/
def nuclideMassPairs : List (String × String) :=
  [("n", "neutron"), ("p+", "proton"), ("H-1", "p+"), ("H-1 0+", "p+"),
   ("D", "D+"), ("T", "T+"), ("He-4", "alpha"), ("Fe-56", "Fe-56 26+")]

/-- JSON particle document whose envelope carries the foreign key `notatype`
in place of `type`, as in the repository's decoder tests of record. -/
def foreignDoc : JsonDoc :=
  ⟨[("notatype", .strVal "DimensionlessParticle"),
    ("module", .strVal "plasmapy.particles.particle_class"),
    ("date_created", .strVal "..."),
    ("__init__", .initVal [] [("mass", .num 5200000), ("charge", .num 6300000)])]⟩

/-- JSON particle document whose envelope carries the foreign key
`fake__init__` in place of `__init__`, as in the repository's decoder tests
of record. -/
def fakeInitDoc : JsonDoc :=
  ⟨[("type", .strVal "DimensionlessParticle"),
    ("module", .strVal "plasmapy.particles.particle_class"),
    ("date_created", .strVal "..."),
    ("fake__init__", .initVal [] [("mass", .num 5200000), ("charge", .num 6300000)])]⟩

/-- C1: for every valid particle p, constructing a new Particle from p yields
a value equal to p — also through the triple nesting
Particle(Particle(Particle(p))) — while being a distinct object in memory
(fresh allocation id, so Particle(p) is not p). -/
theorem particle_from_particle_equal_distinct (p : PObject) (n : Nat) (h : p.id < n) :
    ((mkParticleFromParticle p n).1.val = p.val) ∧
    ((mkParticleFromParticle p n).1.id ≠ p.id) ∧
    ((mkParticleFromParticle
        (mkParticleFromParticle
          (mkParticleFromParticle p n).1 (mkParticleFromParticle p n).2).1
        (mkParticleFromParticle
          (mkParticleFromParticle p n).1 (mkParticleFromParticle p n).2).2).1.val
      = p.val) := by
  refine ⟨rfl, ?_, rfl⟩
  simp only [mkParticleFromParticle]
  omega

/-- Witness for C1 at a concrete electron object allocated before counter 1. -/
theorem particle_from_particle_equal_distinct_witness :
    ((⟨0, { symbol := "e-" }⟩ : PObject).id < 1) ∧
    ((mkParticleFromParticle ⟨0, { symbol := "e-" }⟩ 1).1.val =
      (⟨0, { symbol := "e-" }⟩ : PObject).val) ∧
    ((mkParticleFromParticle ⟨0, { symbol := "e-" }⟩ 1).1.id ≠
      (⟨0, { symbol := "e-" }⟩ : PObject).id) :=
  ⟨by decide,
   (particle_from_particle_equal_distinct ⟨0, { symbol := "e-" }⟩ 1 (by decide)).1,
   (particle_from_particle_equal_distinct ⟨0, { symbol := "e-" }⟩ 1 (by decide)).2.1⟩

/-- C2: for every subatomic particle of the catalog, the unary invert
operator agrees with the antiparticle attribute, the antiparticle operation
is an involution, and the antiparticle has the negated integer charge and the
same catalog mass. -/
theorem antiparticle_involution_charge_mass (p : Particle) (h : p ∈ particleZoo) :
    p.invert = p.antiparticle ∧
    ((p.antiparticle).bind Particle.antiparticle) = .ok p ∧
    (p.antiparticle).map (fun q => q.charge) = .ok (p.charge.map (fun c => -c)) ∧
    (p.antiparticle).map (fun q => q.tabulatedMass) = .ok p.tabulatedMass := by
  fin_cases h <;> exact ⟨rfl, by decide, by decide, by decide⟩

/-- Witness for C2 at the catalog proton. -/
theorem antiparticle_involution_charge_mass_witness :
    protonParticle ∈ particleZoo ∧
    ((protonParticle.antiparticle).bind Particle.antiparticle) = .ok protonParticle :=
  ⟨by decide, (antiparticle_involution_charge_mass protonParticle (by decide)).2.1⟩

/-- C3: for every isotope of the reference table, the nuclide_mass attribute
of the bare isotope equals the mass attribute of its fully-stripped ion
(charge equal to the atomic number); the same holds for the string pairs of
the test of record, including the single nucleons neutron and proton. -/
theorem nuclide_mass_eq_fully_stripped_mass :
    (∀ iso ∈ isotopeTable,
      Particle.nuclide_mass (isotopeParticle iso) =
        Particle.mass (setCharge (isotopeParticle iso) iso.atomicNumber)) ∧
    (∀ pr ∈ nuclideMassPairs,
      pipeParticle pr.1 Particle.nuclide_mass = pipeParticle pr.2 Particle.mass) :=
  ⟨by decide, by decide⟩

/-- Witness for C3 at the He-4 table entry and the (He-4, alpha) pair. -/
theorem nuclide_mass_eq_fully_stripped_mass_witness :
    ((⟨"He-4", ["He-4"], "He", 2, 4, 664465733570000⟩ : IsotopeEntry) ∈ isotopeTable) ∧
    (Particle.nuclide_mass
        (isotopeParticle ⟨"He-4", ["He-4"], "He", 2, 4, 664465733570000⟩) =
      Particle.mass
        (setCharge (isotopeParticle ⟨"He-4", ["He-4"], "He", 2, 4, 664465733570000⟩)
          (⟨"He-4", ["He-4"], "He", 2, 4, 664465733570000⟩ : IsotopeEntry).atomicNumber)) ∧
    (("He-4", "alpha") ∈ nuclideMassPairs) ∧
    (pipeParticle "He-4" Particle.nuclide_mass = pipeParticle "alpha" Particle.mass) :=
  ⟨by decide,
   nuclide_mass_eq_fully_stripped_mass.1 ⟨"He-4", ["He-4"], "He", 2, 4, 664465733570000⟩
     (by decide),
   by decide,
   nuclide_mass_eq_fully_stripped_mass.2 ("He-4", "alpha") (by decide)⟩

/-- C4: the ionize/recombine operations follow the documented error policy —
ChargeError when the charge state is unknown, InvalidIonError when ionizing a
fully-stripped ion beyond the atomic number, TypeError for non-integer
counts, ValueError for out-of-range counts, and InvalidElementError on
non-element subatomic particles. -/
theorem ionize_recombine_error_policy :
    pipeParticle "Fe" (fun p => p.ionize (.int 1)) = .error .chargeErr ∧
    pipeParticle "D" (fun p => p.recombine (.int 1)) = .error .chargeErr ∧
    pipeParticle "Fe 26+" (fun p => p.ionize (.int 1)) = .error .invalidIon ∧
    pipeParticle "Fe 6+" (fun p => p.ionize (.int (-1))) = .error .valueError ∧
    pipeParticle "Fe 25+" (fun p => p.recombine (.int 0)) = .error .valueError ∧
    pipeParticle "Fe 6+" (fun p => p.ionize (.float (23 / 5))) = .error .typeError ∧
    pipeParticle "Fe 25+" (fun p => p.recombine (.float (41 / 5))) = .error .typeError ∧
    pipeParticle "e-" (fun p => p.ionize (.int 1)) = .error .invalidElement ∧
    pipeParticle "e+" (fun p => p.recombine (.int 1)) = .error .invalidElement := by
  decide

/-- C9: a CustomParticle constructed with a bare numeric charge stores that
multiple of the elementary charge (e.g. charge -2 becomes -2 times
1.602176634e-19 C), whereas a dimensioned charge quantity is stored as the
given physical value. -/
theorem custom_particle_charge_interpretation :
    (∀ x : Int, customParticleCharge (some (.bare x)) =
      .ok (some (x * elementaryCharge))) ∧
    (customParticleCharge (some (.bare (-2000000))) =
      .ok (some (-3204353268000000))) ∧
    (∀ v : Int, customParticleCharge (some (.qty v "C")) =
      .ok (some (v * 10 ^ 28))) ∧
    (∀ v : Int, customParticleCharge (some (.qty v "kC")) =
      .ok (some (v * 10 ^ 31))) ∧
    (customParticleCharge none = .ok none) :=
  ⟨fun _ => rfl, by decide, fun _ => rfl, fun _ => rfl, rfl⟩

/-- C10: evaluating the truth value of any Particle raises AtomicError — a
particle value has no boolean interpretation. -/
theorem particle_bool_raises_atomic_error (p : Particle) :
    p.toBool = .error .atomic :=
  rfl

/-- C5: for every particle, the is_category query raises AtomicError when any
argument names a tag outside the fixed vocabulary, or when exclude names the
same tag as require or any_of (self-contradictory query); otherwise it
returns the boolean membership answer. -/
theorem is_category_error_policy :
    (∀ (p : Particle) (require anyOf exclude : List String),
      (∃ t ∈ require ++ anyOf ++ exclude, t ∉ validCategories) →
        p.is_category require anyOf exclude = .error .atomic) ∧
    (∀ (p : Particle) (require anyOf exclude : List String),
      (∃ t ∈ exclude, t ∈ require ∨ t ∈ anyOf) →
        p.is_category require anyOf exclude = .error .atomic) ∧
    (∀ (p : Particle) (require anyOf exclude : List String),
      (∀ t ∈ require ++ anyOf ++ exclude, t ∈ validCategories) →
      (∀ t ∈ exclude, t ∉ require ∧ t ∉ anyOf) →
        p.is_category require anyOf exclude =
          .ok (categoryMembership p require anyOf exclude)) := by
  refine ⟨?_, ?_, ?_⟩
  · intro p r a e h
    simp only [Particle.is_category, if_pos h]
  · intro p r a e h
    by_cases h1 : ∃ t ∈ r ++ a ++ e, t ∉ validCategories
    · simp only [Particle.is_category, if_pos h1]
    · simp only [Particle.is_category, if_neg h1, if_pos h]
  · intro p r a e h1 h2
    have g1 : ¬ ∃ t ∈ r ++ a ++ e, t ∉ validCategories := by
      rintro ⟨t, ht, hv⟩
      exact hv (h1 t ht)
    have g2 : ¬ ∃ t ∈ e, t ∈ r ∨ t ∈ a := by
      rintro ⟨t, ht, hor⟩
      rcases h2 t ht with ⟨hr, ha⟩
      cases hor with
      | inl hh => exact hr hh
      | inr hh => exact ha hh
    simp only [Particle.is_category, if_neg g1, if_neg g2]

/-- Witness for C5: the contradictory query require boson / exclude boson and
the unknown tag invalid, both at the catalog proton. -/
theorem is_category_error_policy_witness :
    (∃ t ∈ (["boson"] : List String),
      t ∈ (["boson"] : List String) ∨ t ∈ ([] : List String)) ∧
    Particle.is_category protonParticle ["boson"] [] ["boson"] = .error .atomic ∧
    (∃ t ∈ (["lepton"] : List String) ++ [] ++ ["invalid"], t ∉ validCategories) ∧
    Particle.is_category protonParticle ["lepton"] [] ["invalid"] = .error .atomic :=
  ⟨by decide,
   is_category_error_policy.2.1 protonParticle ["boson"] [] ["boson"] (by decide),
   by decide,
   is_category_error_policy.1 protonParticle ["lepton"] [] ["invalid"] (by decide)⟩

/-- C6: decoding a JSON particle envelope raises InvalidElementError whenever
the key that should be type, or the key that should be init replay, is absent
(replaced by some other key), for both the string-decoding and file-decoding
entry points, with no fallback guessing attempted. -/
theorem json_decode_envelope_key_errors (doc : JsonDoc)
    (h : lookupKey doc.pardict "type" = none ∨
      lookupKey doc.pardict "__init__" = none) :
    json_loads_particle doc = .error .invalidElement ∧
    json_load_particle ⟨doc⟩ = .error .invalidElement := by
  have key : decodeEnvelope doc = .error .invalidElement := by
    rcases h with h | h
    · simp only [decodeEnvelope, h]
    · cases hty : lookupKey doc.pardict "type" with
      | none => simp only [decodeEnvelope, hty]
      | some v =>
        cases v with
        | strVal s => simp only [decodeEnvelope, hty, h]
        | initVal a k => simp only [decodeEnvelope, hty]
  exact ⟨key, key⟩

/-- Witness for C6 at the decoder-test documents with the foreign keys
notatype and fake init. -/
theorem json_decode_envelope_key_errors_witness :
    (lookupKey foreignDoc.pardict "type" = none ∨
      lookupKey foreignDoc.pardict "__init__" = none) ∧
    json_loads_particle foreignDoc = .error .invalidElement ∧
    json_load_particle ⟨fakeInitDoc⟩ = .error .invalidElement :=
  ⟨Or.inl rfl,
   (json_decode_envelope_key_errors foreignDoc (Or.inl rfl)).1,
   (json_decode_envelope_key_errors fakeInitDoc (Or.inr rfl)).2⟩

/-- C7 counterexample: comparing a particle to an integer raises TypeError,
not the AtomicError kind the claim names. -/
theorem particle_eq_int_not_atomic_error :
    pipeParticle "e-" (fun p => p.eqVal (.int 1)) = .error .typeError ∧
    pipeParticle "e-" (fun p => p.eqVal (.int 1)) ≠ .error .atomic := by
  decide

/-- C7 (amended): equality between two Particle values holds exactly when
their canonical symbols are equal; comparing against an unparseable string
raises AtomicError; comparing against a non-particle non-string value such as
an integer raises TypeError rather than evaluating to False. -/
theorem particle_eq_policy (p : Particle) :
    (∀ q : Particle, p.eqVal (.particle q) = .ok (p.symbol == q.symbol)) ∧
    (∀ s : String, (∃ e, parseParticle s = .error e) →
      p.eqVal (.str s) = .error .atomic) ∧
    (∀ n : Int, p.eqVal (.int n) = .error .typeError) ∧
    pipeParticle "p+" (fun r => r.eqVal (.str "proton")) = .ok true ∧
    pipeParticle "p+" (fun r => r.eqVal (.str "e-")) = .ok false ∧
    pipeParticle "e-" (fun r => r.eqVal (.str "dfasdf")) = .error .atomic := by
  refine ⟨fun q => rfl, ?_, fun n => rfl, by decide, by decide, by decide⟩
  rintro s ⟨e, he⟩
  simp only [Particle.eqVal, he]

/-- Witness for C7 at the unparseable string of the test of record. -/
theorem particle_eq_policy_witness :
    (∃ e, parseParticle "dfasdf" = .error e) ∧
    Particle.eqVal protonParticle (.str "dfasdf") = .error .atomic :=
  ⟨⟨.invalidParticle, by decide⟩,
   (particle_eq_policy protonParticle).2.1 "dfasdf" ⟨.invalidParticle, by decide⟩⟩

/-- Any failure of base-symbol resolution is an InvalidParticleError. -/
theorem resolveBase_error_kind (s : String) (e : PError)
    (h : resolveBase s = .error e) : e = .invalidParticle := by
  unfold resolveBase at h
  split at h
  · exact Except.noConfusion h
  · split at h
    · exact Except.noConfusion h
    · split at h
      · exact Except.noConfusion h
      · injection h with h2
        exact h2.symm

/-- Any failure of trailing-charge extraction is an InvalidParticleError. -/
theorem extractCharge_error_kind (s : String) (e : PError)
    (h : extractCharge s = .error e) : e = .invalidParticle := by
  unfold extractCharge at h
  simp only [] at h
  split at h
  · exact Except.noConfusion h
  · split at h
    · injection h with h2
      exact h2.symm
    · exact Except.noConfusion h

/-- Any failure of charge attachment is an InvalidParticleError. -/
theorem attachCharge_error_kind (p : Particle) (z : Int) (w : Bool) (e : PError)
    (h : attachCharge p z w = .error e) : e = .invalidParticle := by
  unfold attachCharge at h
  split at h
  · injection h with h2
    exact h2.symm
  · split at h
    · split at h
      · injection h with h2
        exact h2.symm
      · exact Except.noConfusion h
    · injection h with h2
      exact h2.symm

/-- Any failure of the symbol parser is an InvalidParticleError: the parser
raises that kind exactly when the input is unparseable, and every other
anomaly is surfaced as a non-fatal warning. -/
theorem parseParticle_error_kind (s : String) (e : PError)
    (h : parseParticle s = .error e) : e = .invalidParticle := by
  unfold parseParticle at h
  split at h
  · exact Except.noConfusion h
  · split at h
    · exact Except.noConfusion h
    · split at h
      · split at h
        · injection h with h2
          exact h2.symm
        · split at h
          · rename_i heq
            injection h with h2
            subst h2
            exact resolveBase_error_kind _ _ heq
          · exact attachCharge_error_kind _ _ _ _ h
      · split at h
        · rename_i heq
          injection h with h2
          subst h2
          exact extractCharge_error_kind _ _ heq
        · split at h
          · rename_i heq
            injection h with h2
            subst h2
            exact resolveBase_error_kind _ _ heq
          · split at h
            · exact Except.noConfusion h
            · exact attachCharge_error_kind _ _ _ _ h
      · injection h with h2
        exact h2.symm

/-- C8: charge notation with more than 6 sign characters, or an internally
inconsistent (mixed) sign run, is given its best parseable interpretation
with a non-fatal AtomicWarning; the concrete input H---- succeeds with charge
-4 and an AtomicWarning; and parsing raises InvalidParticleError exactly for
unparseable input (every parse failure is of that kind). -/
theorem charge_notation_warning_policy :
    (∀ (s : String) (ce : ChargeExtraction), extractCharge s = .ok ce →
      6 < (signRun s).length → ce.warn = true) ∧
    (∀ (s : String) (ce : ChargeExtraction), extractCharge s = .ok ce →
      (signRun s).contains '+' = true → (signRun s).contains '-' = true →
      ce.warn = true) ∧
    ((parseParticle "H----").map (fun r => (r.particle.charge, r.warnings)) =
      .ok (some (-4), [.atomicWarning])) ∧
    ((parseParticle "Fe+-").map (fun r => (r.particle.charge, r.warnings)) =
      .ok (some 0, [.atomicWarning])) ∧
    (∀ (s : String) (e : PError), parseParticle s = .error e →
      e = .invalidParticle) := by
  refine ⟨?_, ?_, by decide, by decide, fun s e h => parseParticle_error_kind s e h⟩
  · intro s ce h h6
    unfold extractCharge at h
    simp only [] at h
    split at h
    · rename_i hemp
      rw [List.isEmpty_iff] at hemp
      rw [hemp] at h6
      exact absurd h6 (by decide)
    · split at h
      · exact Except.noConfusion h
      · injection h with h2
        subst h2
        simp only [decide_eq_true h6, Bool.true_or]
  · intro s ce h hplus hminus
    unfold extractCharge at h
    simp only [] at h
    split at h
    · rename_i hemp
      rw [List.isEmpty_iff] at hemp
      rw [hemp] at hplus
      exact absurd hplus (by decide)
    · split at h
      · exact Except.noConfusion h
      · injection h with h2
        subst h2
        simp only [hplus, hminus, Bool.and_self, Bool.or_true, Bool.true_or]

/-- Witness for C8 at a seven-sign run, a mixed run, and an unparseable
input. -/
theorem charge_notation_warning_policy_witness :
    (extractCharge "Fe+++++++" = .ok ⟨"Fe", some 7, true⟩) ∧
    (6 < (signRun "Fe+++++++").length) ∧
    ((⟨"Fe", some 7, true⟩ : ChargeExtraction).warn = true) ∧
    ((signRun "Fe+-").contains '+' = true) ∧
    ((⟨"Fe", some 0, true⟩ : ChargeExtraction).warn = true) ∧
    (PError.invalidParticle = PError.invalidParticle) :=
  ⟨by decide, by decide,
   charge_notation_warning_policy.1 "Fe+++++++" ⟨"Fe", some 7, true⟩
     (by decide) (by decide),
   by decide,
   charge_notation_warning_policy.2.1 "Fe+-" ⟨"Fe", some 0, true⟩
     (by decide) (by decide) (by decide),
   charge_notation_warning_policy.2.2.2.2 "dfasdf" .invalidParticle (by decide)⟩

end PlasmaPy
